import Mathlib

/-!
Verification of the pymoku IIR Filter Box driver (`pymoku/_iirfilterbox.py`)
against its natural-language specification.

The Python module is shallowly embedded: engineering-unit values (Python
floats) are modelled as rationals, instrument state as an explicit record,
and each public setter as a function from state and arguments to a pair of
an `Except` outcome (Python exception semantics) and the resulting state.
Pieces of the library that the module calls but whose source is not part of
this repository snapshot (`_utils.check_parameter_valid`, the register-codec
helpers of `_instrument.py`, `DecFilter`, the transport) are modelled from
the specification; each such definition is marked `Modelled from the spec:`.
-/

deriving instance DecidableEq for Except

namespace Pymoku

/-- Exception taxonomy of the spec (§7): validation errors from
`check_parameter_valid`, Python `IndexError` from out-of-bounds list access,
transport failures from `_send_file`, and codec-level range overflow. -/
inductive PyErr
  | validationError
  | indexError
  | transportError
  | rangeOverflowError
deriving DecidableEq, Repr

/-- Python 3 `round` (round half to even) on rationals, as used by the
`int(round(...))` idioms in the register transforms and the coefficient
packing.  The spec (§4.1) requires one consistent rounding mode; the
runtime's is round-half-to-even. -/
def pyRound (q : ℚ) : ℤ :=
  let f := ⌊q⌋
  let r := q - f
  if r < 1 / 2 then f
  else if 1 / 2 < r then f + 1
  else if 2 ∣ f then f else f + 1

/-- Modelled from the spec: `_utils.check_parameter_valid('range', v, [lo, hi], ...)`
(the source of `_utils.py` is not in the snapshot).  Per spec §8, a value
outside the closed interval `[min, max]` raises a ValidationError; inside it,
the check passes with no effect. -/
def checkRange (v lo hi : ℚ) : Except PyErr Unit :=
  if lo ≤ v ∧ v ≤ hi then .ok () else .error .validationError

/-- Instrument-model state of the IIR Filter Box that the embedded
operations touch: the staged user settings (`self._matrixscale_*`,
`self._input_scale*`, ... in `__init__`), the stored per-channel filter
arrays, the staged decimation-filter sample rates, monitor selections,
enable bits, the exclusive memory-map access flag, and the bytes of the
last successful bulk upload (`sent`, recording what `_send_file` shipped). -/
structure IIRState where
  matrixscale_ch1_ch1 : ℚ
  matrixscale_ch1_ch2 : ℚ
  matrixscale_ch2_ch1 : ℚ
  matrixscale_ch2_ch2 : ℚ
  input_scale1 : ℚ
  output_scale1 : ℚ
  input_offset1 : ℚ
  output_offset1 : ℚ
  input_scale2 : ℚ
  output_scale2 : ℚ
  input_offset2 : ℚ
  output_offset2 : ℚ
  filter_ch1 : List (List ℚ)
  filter_ch2 : List (List ℚ)
  decfilter1_rate : Option ℕ
  decfilter2_rate : Option ℕ
  mon1_source : ℕ
  mon2_source : ℕ
  input_en1 : Bool
  input_en2 : Bool
  output_en1 : Bool
  output_en2 : Bool
  mmap_access : Bool
  sent : Option (List ℕ)
deriving DecidableEq, Repr

/-- The all-pass section `b = [1.0,1.0,0.0,0.0,0.0,0.0]` used by
`set_defaults` to initialise both channels' filter arrays. -/
def allpassRow : List ℚ := [1, 1, 0, 0, 0, 0]

/-- A concrete state mirroring the module defaults (`__init__` zeroes the
staged scales/offsets; `set_defaults` installs all-pass filters, identity
mixing, and enables inputs). Used to instantiate universally quantified
theorems at a concrete state. -/
def defState : IIRState where
  matrixscale_ch1_ch1 := 1
  matrixscale_ch1_ch2 := 0
  matrixscale_ch2_ch1 := 0
  matrixscale_ch2_ch2 := 1
  input_scale1 := 1
  output_scale1 := 1
  input_offset1 := 0
  output_offset1 := 0
  input_scale2 := 1
  output_scale2 := 1
  input_offset2 := 0
  output_offset2 := 0
  filter_ch1 := [allpassRow, allpassRow, allpassRow, allpassRow]
  filter_ch2 := [allpassRow, allpassRow, allpassRow, allpassRow]
  decfilter1_rate := none
  decfilter2_rate := none
  mon1_source := 0
  mon2_source := 0
  input_en1 := true
  input_en2 := true
  output_en1 := false
  output_en2 := false
  mmap_access := false
  sent := none

/-- Embeds `set_control_matrix` (src lines 150-178): validates the channel, then
the two scale factors against `[-20, 20]`, and only then stores them in the
staged `_matrixscale_*` variables for the chosen channel.  (The
one-decimal-place quantization warning is a log message with no state
effect and is not modelled.) -/
def set_control_matrix (s : IIRState) (ch : ℕ) (scale_in1 scale_in2 : ℚ) :
    Except PyErr Unit × IIRState :=
  if ch = 1 ∨ ch = 2 then
    match checkRange scale_in1 (-20) 20 with
    | .error e => (.error e, s)
    | .ok _ =>
      match checkRange scale_in2 (-20) 20 with
      | .error e => (.error e, s)
      | .ok _ =>
        if ch = 1 then
          (.ok (), { s with matrixscale_ch1_ch1 := scale_in1,
                            matrixscale_ch1_ch2 := scale_in2 })
        else
          (.ok (), { s with matrixscale_ch2_ch1 := scale_in1,
                            matrixscale_ch2_ch2 := scale_in2 })
  else (.error .validationError, s)

/-- Embeds `set_gains_offsets` (src lines 301-337): validates the channel, the two
gains against `[-100, 100]`, the input offset against `[-1, 1]` and the
output offset against `[-2, 2]`, then stores all four staged values for the
chosen channel. -/
def set_gains_offsets (s : IIRState) (ch : ℕ)
    (input_gain output_gain input_offset output_offset : ℚ) :
    Except PyErr Unit × IIRState :=
  if ch = 1 ∨ ch = 2 then
    match checkRange input_gain (-100) 100 with
    | .error e => (.error e, s)
    | .ok _ =>
      match checkRange output_gain (-100) 100 with
      | .error e => (.error e, s)
      | .ok _ =>
        match checkRange input_offset (-1) 1 with
        | .error e => (.error e, s)
        | .ok _ =>
          match checkRange output_offset (-2) 2 with
          | .error e => (.error e, s)
          | .ok _ =>
            if ch = 1 then
              (.ok (), { s with input_scale1 := input_gain,
                                output_scale1 := output_gain,
                                input_offset1 := input_offset,
                                output_offset1 := output_offset })
            else
              (.ok (), { s with input_scale2 := input_gain,
                                output_scale2 := output_gain,
                                input_offset2 := input_offset,
                                output_offset2 := output_offset })
  else (.error .validationError, s)

/-- The `sources` dictionary of `set_monitor` (src lines 380-388), mapping a
source name to its `_IIR_MON_*` code.  Lookup happens only after the source
has been validated against the allowed set, so the default branch is
unreachable in `set_monitor`. -/
def monSourceNum (src : String) : ℕ :=
  if src = ("adc1" : String) then 1
  else if src = ("in1" : String) then 2
  else if src = ("out1" : String) then 3
  else if src = ("adc2" : String) then 4
  else if src = ("in2" : String) then 5
  else if src = ("out2" : String) then 6
  else 0

/-- Embeds `set_monitor` (src lines 351-396): validates the monitor channel
against `{'a','b'}` and the source against the allowed six names (both
checks run before the `.lower()` normalisation, so the validated strings
are already lower-case), then stores the numeric source code in
`mon1_source` or `mon2_source`. -/
def set_monitor (s : IIRState) (ch source : String) :
    Except PyErr Unit × IIRState :=
  if ch = ("a" : String) ∨ ch = ("b" : String) then
    if source = ("adc1" : String) ∨ source = ("in1" : String) ∨
       source = ("out1" : String) ∨ source = ("adc2" : String) ∨
       source = ("in2" : String) ∨ source = ("out2" : String) then
      if ch = ("a" : String) then
        (.ok (), { s with mon1_source := monSourceNum source })
      else
        (.ok (), { s with mon2_source := monSourceNum source })
    else (.error .validationError, s)
  else (.error .validationError, s)

/-- Embeds `disable_output` (src lines 288-298): no validation at all — `ch == 1`
clears `output_en1`, anything else clears `output_en2`. -/
def disable_output (s : IIRState) (ch : ℕ) : Except PyErr Unit × IIRState :=
  if ch = 1 then (.ok (), { s with output_en1 := false })
  else (.ok (), { s with output_en2 := false })

/-! ### `set_filter`: coefficient validation, reshape and bulk upload -/

/-- Lower bound of the overall-gain range check (src line 229). -/
def gainLo : ℚ := -8000000

/-- Upper bound of the overall-gain range check, `8e6 - 2**(-24)`
(src line 229). -/
def gainHi : ℚ := 8000000 - 1 / 2 ^ 24

/-- Lower bound of the per-SOS-coefficient range check (src line 232). -/
def coefLo : ℚ := -4

/-- Upper bound of the per-SOS-coefficient range check, `4.0 - 2**(-45)`
(src line 232). -/
def coefHi : ℚ := 4 - 1 / 2 ^ 45

/-- Python list indexing `filter_coefficients[m][n]`, `none` when either
index is out of bounds (which in Python raises `IndexError`). -/
def getEntry (fc : List (List ℚ)) (m n : ℕ) : Option ℚ :=
  (fc.get? m).bind fun row => row.get? n

/-- One iteration of the value-check loop body (src lines 229-232): read
`filter_coefficients[m][n]` — `IndexError` if absent — then range-check it. -/
def checkEntry (fc : List (List ℚ)) (m n : ℕ) (lo hi : ℚ) :
    Except PyErr Unit :=
  match getEntry fc m n with
  | none => .error .indexError
  | some v => checkRange v lo hi

/-- The inner `for n in range(6)` loop of the value check, with Python's
exception short-circuiting: the first failing index aborts the loop. -/
def checkEntries (fc : List (List ℚ)) (m : ℕ) (lo hi : ℚ) :
    List ℕ → Except PyErr Unit
  | [] => .ok ()
  | n :: ns => checkEntry fc m n lo hi >>= fun _ => checkEntries fc m lo hi ns

/-- The array-dimension check of `set_filter` (src lines 217-226): exactly
5 rows; then `for m in range(4)` checks row 0 for 1 column and rows 1-3 for
6 columns each.  The loop bound `range(4)` means row 4's length is never
examined. -/
def dimCheck (fc : List (List ℚ)) : Except PyErr Unit :=
  if fc.length = 5 then
    if (fc.getD 0 []).length = 1 then
      if (fc.getD 1 []).length = 6 then
        if (fc.getD 2 []).length = 6 then
          if (fc.getD 3 []).length = 6 then .ok ()
          else .error .validationError
        else .error .validationError
      else .error .validationError
    else .error .validationError
  else .error .validationError

/-- The array-value check of `set_filter` (src lines 228-232): the overall
gain `filter_coefficients[0][0]` against `[-8e6, 8e6 - 2**-24]`, then every
entry of rows 1-4 (`for m in range(1,5): for n in range(6)`) against
`[-4.0, 4.0 - 2**-45]`. -/
def valueCheck (fc : List (List ℚ)) : Except PyErr Unit :=
  checkEntry fc 0 0 gainLo gainHi >>= fun _ =>
  checkEntries fc 1 coefLo coefHi (List.range 6) >>= fun _ =>
  checkEntries fc 2 coefLo coefHi (List.range 6) >>= fun _ =>
  checkEntries fc 3 coefLo coefHi (List.range 6) >>= fun _ =>
  checkEntries fc 4 coefLo coefHi (List.range 6)

/-- Both validation phases of `set_filter` in source order: dimensions
first, then values. -/
def dimValueCheck (fc : List (List ℚ)) : Except PyErr Unit :=
  dimCheck fc >>= fun _ => valueCheck fc

/-- The per-row part of the reshape loop (src lines 236-240): multiply the
`s` coefficient into `b0`, `b1`, `b2` and replace `s` with `1.0`.  Callers
reach this only after the value check guaranteed at least 6 entries. -/
def reshapeRow (row : List ℚ) : List ℚ :=
  match row with
  | s :: b0 :: b1 :: b2 :: rest => 1 :: s * b0 :: s * b1 :: s * b2 :: rest
  | other => other

/-- The full coefficient reshape of `set_filter` (src lines 235-244):
reshape rows 1-4, write the overall gain `filter_coefficients[0][0]` into
the fourth section's `s` slot, and drop the gain row
(`intermediate_filter[1:5]`). -/
def reshapeFilter (fc : List (List ℚ)) : List (List ℚ) :=
  let g := (fc.getD 0 []).getD 0 0
  [reshapeRow (fc.getD 1 []), reshapeRow (fc.getD 2 []),
   reshapeRow (fc.getD 3 []), (reshapeRow (fc.getD 4 [])).set 0 g]

/-- Reads `filter_coeffs[x][idx]` where `filter_coeffs[x]` is the concatenation
`self.filter_ch1[x] + self.filter_ch2[x]` (src lines 252-255). -/
def filterEntry (fc1 fc2 : List (List ℚ)) (x idx : ℕ) : ℚ :=
  ((fc1.getD x []) ++ (fc2.getD x [])).getD idx 0

/-- Computes `coeff_list[x][y][k]` (src lines 257-263): the fixed-point packing of
one entry — gain slots (`y == 0`) scale by `2**(48-24)`, all other slots by
`2**(48-3)`, rounded by `int(round(...))`. -/
def coeffVal (fc1 fc2 : List (List ℚ)) (x y k : ℕ) : ℤ :=
  if y = 0 then pyRound (2 ^ 24 * filterEntry fc1 fc2 x (y + k * 6))
  else pyRound (2 ^ 45 * filterEntry fc1 fc2 x (y + k * 6))

/-- The integers written to the scratch file `.data.dat`, in the exact loop
order of src lines 266-269: `for k in range(2): for y in range(6): for x in
range(4)` — channel outermost, then coefficient component, then SOS row. -/
def payloadInts (fc1 fc2 : List (List ℚ)) : List ℤ :=
  (List.range 2).flatMap fun k =>
    (List.range 6).flatMap fun y =>
      (List.range 4).map fun x => coeffVal fc1 fc2 x y k

/-- Embeds `struct.pack` of format `<q`: the 8 bytes of the two's-complement 64-bit
little-endian encoding, least significant byte first. -/
def le8 (v : ℤ) : List ℕ :=
  (List.range 8).map fun i => ((v % 2 ^ 64).toNat / 2 ^ (8 * i)) % 256

/-- The byte stream of the bulk-upload scratch file: each packed integer in
loop order, serialised as 8 little-endian bytes. -/
def payloadBytes (fc1 fc2 : List (List ℚ)) : List ℕ :=
  (payloadInts fc1 fc2).flatMap le8

/-- Modelled from the spec: `DecFilter.set_samplerate` (`_dec_filter.py` is
not in the snapshot).  Per spec §4.2/§4.4 a setter stages a named virtual
attribute; the staged decimation factor is `8` for 'high' and `1024` for
'low' (src line 205), stored on the decimation filter of the chosen channel
(src lines 206-209). -/
def stageRate (s : IIRState) (ch : ℕ) (rate : String) : IIRState :=
  let factor : ℕ := if rate = ("high" : String) then 8 else 1024
  if ch = 1 then { s with decfilter1_rate := some factor }
  else { s with decfilter2_rate := some factor }

/-- Embeds `set_filter` (src lines 188-285).  In source order: validate the
channel and sample-rate strings; stage the decimation sample rate; if a
coefficient array was given, run the dimension and value checks (raising
leaves the already-staged sample rate in place), reshape and store the
array for the channel; pack both channels' stored arrays into the upload
payload; enable exclusive memory-map access; perform the bulk upload
(`_send_file`, modelled from the spec as a fallible transport call whose
outcome is the `sendOk` argument, and which on success ships exactly the
scratch-file bytes); on success disable memory-map access and enable the
channel's input and output — on transport failure the exception propagates
with the access flag still set, as there is no try/finally in the source. -/
def set_filter (s : IIRState) (ch : ℕ) (sample_rate : String)
    (fcOpt : Option (List (List ℚ))) (sendOk : Bool) :
    Except PyErr Unit × IIRState :=
  if ch = 1 ∨ ch = 2 then
    if sample_rate = ("high" : String) ∨ sample_rate = ("low" : String) then
      let s1 := stageRate s ch sample_rate
      let afterCoeffs : Except PyErr IIRState :=
        match fcOpt with
        | none => .ok s1
        | some fc =>
          match dimValueCheck fc with
          | .error e => .error e
          | .ok _ =>
            if ch = 1 then .ok { s1 with filter_ch1 := reshapeFilter fc }
            else .ok { s1 with filter_ch2 := reshapeFilter fc }
      match afterCoeffs with
      | .error e => (.error e, s1)
      | .ok s2 =>
        let s3 := { s2 with mmap_access := true }
        if sendOk then
          let s4 := { s3 with
            sent := some (payloadBytes s2.filter_ch1 s2.filter_ch2),
            mmap_access := false }
          if ch = 1 then
            (.ok (), { s4 with output_en1 := true, input_en1 := true })
          else
            (.ok (), { s4 with output_en2 := true, input_en2 := true })
        else (.error .transportError, s3)
    else (.error .validationError, s)
  else (.error .validationError, s)

/-! ### Frame scaling (`_calculate_scales`) and frame decode -/

/-- The inputs `_calculate_scales` reads from the superclass's scales
snapshot (`_CoreOscilloscope._calculate_scales` is outside this module):
per-channel frontend attenuation and impedance flags, raw ADC gains and DAC
gains.  `fiftyr_*` are carried because the frontend state includes them,
but `_iirfilterbox.py` itself never reads them. -/
structure ScaleInputs where
  atten_ch1 : Bool
  atten_ch2 : Bool
  fiftyr_ch1 : Bool
  fiftyr_ch2 : Bool
  gain_adc1 : ℚ
  gain_adc2 : ℚ
  gain_dac1 : ℚ
  gain_dac2 : ℚ
deriving DecidableEq, Repr

/-- The `monitor_source_gains` table of `_calculate_scales` (src lines
450-458), keyed by the `_IIR_MON_*` code.  (Python keys the dict by
`str(code)` and looks up `str(self.mon1_source)`; since `str` is injective
on these small naturals, keying by the code itself is equivalent.)  The
ADC entries receive the attenuation-corrected gains; `in1`/`in2` use the
fixed calibration constant `_ADC_DEFAULT_CALIBRATION = 3750.0`; the output
entries use the DAC gain times `2**4`. -/
def monitorSourceGains (gain_adc1 gain_adc2 gain_dac1 gain_dac2 : ℚ) :
    List (ℕ × ℚ) :=
  [(0, 1), (1, gain_adc1), (2, 1 / 3750), (3, gain_dac1 * 2 ^ 4),
   (4, gain_adc2), (5, 1 / 3750), (6, gain_dac2 * 2 ^ 4)]

/-- Embeds `_calculate_scales` (src lines 439-472), restricted to the two channel
scales this module computes: divide each ADC gain by 10 when that
channel's frontend attenuation is on (src lines 445-446), look each
monitor source up in the gain table (a missing key would be a Python
`KeyError`, hence `Option`), and in precision mode divide both scales by
the decimation gain (src lines 465-467). -/
def calculateScales (mon1 mon2 : ℕ) (precision : Bool) (deciGain : ℚ)
    (inp : ScaleInputs) : Option (ℚ × ℚ) :=
  let gain_adc1 := inp.gain_adc1 / (if inp.atten_ch1 then 10 else 1)
  let gain_adc2 := inp.gain_adc2 / (if inp.atten_ch2 then 10 else 1)
  let tbl := monitorSourceGains gain_adc1 gain_adc2 inp.gain_dac1 inp.gain_dac2
  match tbl.lookup mon1, tbl.lookup mon2 with
  | some g1, some g2 =>
    if precision then some (g1 / deciGain, g2 / deciGain)
    else some (g1, g2)
  | _, _ => none

/-- Modelled from the spec: the frame decoder (`_frame_instrument.py` /
`_oscilloscope.py` are not in the snapshot).  Spec §4.5/§8: a decoded
channel is the raw samples multiplied elementwise by that channel's scale
(`channel_a[i] == raw[i] * scale_ch1`). -/
def decodeChannel (raw : List ℚ) (scale : ℚ) : List ℚ :=
  raw.map fun v => v * scale

/-- The spec's description of the per-monitor-source gain (spec §4.5),
written independently of the lookup-table code for comparison: table keyed
by the monitored signal, with frontend attenuation correcting the ADC
gains by a factor of 10 when enabled. -/
def specMonitorGain (src : ℕ) (inp : ScaleInputs) : ℚ :=
  match src with
  | 0 => 1
  | 1 => inp.gain_adc1 / (if inp.atten_ch1 then 10 else 1)
  | 2 => 1 / 3750
  | 3 => inp.gain_dac1 * 16
  | 4 => inp.gain_adc2 / (if inp.atten_ch2 then 10 else 1)
  | 5 => 1 / 3750
  | _ => inp.gain_dac2 * 16

/-! ### Control-matrix register recomputation at commit time -/

/-- The encode transform of the `matrixscale_ch1_ch1` register handler
(src lines 489-490): `int(round(x * (_ADC_DEFAULT_CALIBRATION / (10.0 if
atten else 1.0)) * adc_gain * 2.0**10))`. -/
def matrixscaleXform (atten : Bool) (adcGain x : ℚ) : ℤ :=
  pyRound (x * (3750 / (if atten then 10 else 1)) * adcGain * 2 ^ 10)

/-- Modelled from the spec: `to_reg_signed` of `_instrument.py` (not in
the snapshot).  Spec §4.1 `encode_signed`: validate
`-2^(width-1) <= raw < 2^(width-1)`, store the two's-complement bit
pattern at the bit offset; overflow must fail, never truncate. -/
def encodeSigned (width offset : ℕ) (v : ℤ) : Except PyErr ℕ :=
  if -2 ^ (width - 1) ≤ v ∧ v < 2 ^ (width - 1) then
    .ok ((v % 2 ^ width).toNat * 2 ^ offset)
  else .error .rangeOverflowError

/-- The commit-time recomputation of the `matrixscale_ch1_ch1` register:
`_update_dependent_regs` calls `_update_control_matrix_regs` (src lines
474-477), which assigns the staged `_matrixscale_ch1_ch1` through the
register handler's transform (src lines 180-185, 489-490), encoded as a
16-bit signed field at bit offset 0 of `REG_CH0_CH0GAIN`. -/
def updateControlMatrixReg1 (s : IIRState) (atten1 : Bool) (adcGain1 : ℚ) :
    Except PyErr ℕ :=
  encodeSigned 16 0 (matrixscaleXform atten1 adcGain1 s.matrixscale_ch1_ch1)

/-- The upload order asserted by the spec, written from its words for
comparison with the source's loop: "component-major, then channel, then
row" — the coefficient component `y` outermost, then the channel `k`, then
the SOS row `x`. -/
def claimOrderInts (fc1 fc2 : List (List ℚ)) : List ℤ :=
  (List.range 6).flatMap fun y =>
    (List.range 2).flatMap fun k =>
      (List.range 4).map fun x => coeffVal fc1 fc2 x y k

/-- A channel-2 filter array distinguishable from the all-pass array,
used to exhibit the upload order. -/
def chBRows : List (List ℚ) :=
  [[1, 2, 0, 0, 0, 0], [1, 2, 0, 0, 0, 0], [1, 2, 0, 0, 0, 0],
   [1, 2, 0, 0, 0, 0]]

/-- Concrete scale-input records used to instantiate the frame-scaling
theorems. -/
def inpW3 : ScaleInputs :=
  { atten_ch1 := false, atten_ch2 := false, fiftyr_ch1 := true,
    fiftyr_ch2 := true, gain_adc1 := 1, gain_adc2 := 1,
    gain_dac1 := 7 / 2, gain_dac2 := 1 }

/-- A second concrete scale-input record: attenuation on channel 1. -/
def inpW8 : ScaleInputs :=
  { atten_ch1 := true, atten_ch2 := false, fiftyr_ch1 := true,
    fiftyr_ch2 := true, gain_adc1 := 5, gain_adc2 := 1,
    gain_dac1 := 1, gain_dac2 := 3 }

/-! ### Helper lemmas -/

/-- Lemma: `checkRange` succeeds exactly on the closed interval. -/
theorem checkRange_ok_iff (v lo hi : ℚ) :
    checkRange v lo hi = .ok () ↔ (lo ≤ v ∧ v ≤ hi) := by
  by_cases h : lo ≤ v ∧ v ≤ hi <;> simp [checkRange, h]

/-- Lemma: `checkRange` never produces any error but a validation error. -/
theorem checkRange_cases (v lo hi : ℚ) :
    checkRange v lo hi = .ok () ∨ checkRange v lo hi = .error .validationError := by
  by_cases h : lo ≤ v ∧ v ≤ hi <;> simp [checkRange, h]

/-- Sequencing in the `Except` monad: a bind is `ok` iff both steps are. -/
theorem exceptBind_ok_iff (x : Except PyErr Unit) (f : Unit → Except PyErr Unit) :
    (x >>= f) = .ok () ↔ (x = .ok () ∧ f () = .ok ()) := by
  cases x with
  | ok u => cases u; simp [Bind.bind, Except.bind]
  | error e => simp [Bind.bind, Except.bind]

/-- A value-check loop passes when every visited entry passes. -/
theorem checkEntries_ok (fc : List (List ℚ)) (m : ℕ) (lo hi : ℚ)
    (ns : List ℕ) (h : ∀ n ∈ ns, checkEntry fc m n lo hi = .ok ()) :
    checkEntries fc m lo hi ns = .ok () := by
  induction ns with
  | nil => rfl
  | cons n ns ih =>
    have hn := h n (by simp)
    have hns := ih fun k hk => h k (by simp [hk])
    simp [checkEntries, hn, hns, Bind.bind, Except.bind]

/-- A value-check loop over a row whose visited entries each either lie in
range or are out of bounds, with at least one out of bounds, stops with a
Python `IndexError` — not a validation error. -/
theorem checkEntries_missing (fc : List (List ℚ)) (m : ℕ) (lo hi : ℚ)
    (ns : List ℕ)
    (hall : ∀ n ∈ ns, getEntry fc m n = none ∨
      ∃ v, getEntry fc m n = some v ∧ lo ≤ v ∧ v ≤ hi)
    (hsome : ∃ n ∈ ns, getEntry fc m n = none) :
    checkEntries fc m lo hi ns = .error .indexError := by
  induction ns with
  | nil => obtain ⟨n, hn, _⟩ := hsome; cases hn
  | cons n ns ih =>
    rcases hall n (by simp) with hnone | ⟨v, hv, hlo, hhi⟩
    · simp [checkEntries, checkEntry, hnone, Bind.bind, Except.bind]
    · have hok : checkEntry fc m n lo hi = .ok () := by
        simp [checkEntry, hv, checkRange, hlo, hhi]
      obtain ⟨k, hk, hknone⟩ := hsome
      rcases List.mem_cons.mp hk with rfl | hk'
      · rw [hv] at hknone; cases hknone
      · have := ih (fun j hj => hall j (by simp [hj])) ⟨k, hk', hknone⟩
        simp [checkEntries, hok, this, Bind.bind, Except.bind]

/-- A value-check loop over entries that all exist can only pass or fail
validation: `IndexError` is impossible. -/
theorem checkEntries_cases (fc : List (List ℚ)) (m : ℕ) (lo hi : ℚ)
    (ns : List ℕ) (h : ∀ n ∈ ns, ∃ v, getEntry fc m n = some v) :
    checkEntries fc m lo hi ns = .ok () ∨
      checkEntries fc m lo hi ns = .error .validationError := by
  induction ns with
  | nil => left; rfl
  | cons n ns ih =>
    obtain ⟨v, hv⟩ := h n (by simp)
    have hrest := ih fun k hk => h k (by simp [hk])
    rcases checkRange_cases v lo hi with hr | hr
    · have hok : checkEntry fc m n lo hi = .ok () := by simp [checkEntry, hv, hr]
      rcases hrest with h2 | h2
      · left; simp [checkEntries, hok, h2, Bind.bind, Except.bind]
      · right; simp [checkEntries, hok, h2, Bind.bind, Except.bind]
    · right
      have : checkEntry fc m n lo hi = .error .validationError := by
        simp [checkEntry, hv, hr]
      simp [checkEntries, this, Bind.bind, Except.bind]

/-- The loop index list `range(6)`, in the explicit form the check loops
consume. -/
theorem range6 : List.range 6 = [0, 1, 2, 3, 4, 5] := rfl

/-- Lemma: `pyRound` is the identity on integers. -/
theorem pyRound_intCast (n : ℤ) : pyRound ((n : ℚ)) = n := by
  have h : ⌊((n : ℚ))⌋ = n := Int.floor_intCast n
  simp [pyRound, h]

/-- A value-check loop passes exactly when every visited entry passes. -/
theorem checkEntries_ok_iff (fc : List (List ℚ)) (m : ℕ) (lo hi : ℚ)
    (ns : List ℕ) :
    checkEntries fc m lo hi ns = .ok () ↔
      ∀ n ∈ ns, checkEntry fc m n lo hi = .ok () := by
  induction ns with
  | nil => simp [checkEntries]
  | cons n ns ih =>
    rw [checkEntries, exceptBind_ok_iff, ih]
    simp

/-- A full row of the value-check loop passes when the row has (at least)
6 entries, all within range. -/
theorem checkEntries_row_ok (fc : List (List ℚ)) (m : ℕ) (row : List ℚ)
    (hrow : fc.get? m = some row) (hlen : row.length = 6)
    (hin : ∀ v ∈ row, coefLo ≤ v ∧ v ≤ coefHi) :
    checkEntries fc m coefLo coefHi (List.range 6) = .ok () := by
  apply checkEntries_ok
  intro n hn
  have hn6 : n < 6 := List.mem_range.mp hn
  have hnl : n < row.length := by omega
  have hv : row.get? n = some (row.get ⟨n, hnl⟩) := List.get?_eq_get hnl
  have hr := hin _ (List.get_mem row n hnl)
  have hg : getEntry fc m n = some (row.get ⟨n, hnl⟩) := by
    simp only [getEntry, hrow, Option.bind]
    exact hv
  simp only [checkEntry, hg, checkRange]
  rw [if_pos hr]

/-- A short row (fewer than 6 entries, all present ones within range) makes
the value-check loop fail with a Python `IndexError`. -/
theorem checkEntries_row_short (fc : List (List ℚ)) (m : ℕ) (row : List ℚ)
    (hrow : fc.get? m = some row) (hlen : row.length < 6)
    (hin : ∀ v ∈ row, coefLo ≤ v ∧ v ≤ coefHi) :
    checkEntries fc m coefLo coefHi (List.range 6) = .error .indexError := by
  apply checkEntries_missing
  · intro n hn
    by_cases hnl : n < row.length
    · exact Or.inr ⟨row.get ⟨n, hnl⟩,
        by simp only [getEntry, hrow, Option.bind]; exact List.get?_eq_get hnl,
        hin _ (List.get_mem row n hnl)⟩
    · exact Or.inl (by
        simp only [getEntry, hrow, Option.bind]
        exact List.get?_len_le (Nat.le_of_not_lt hnl))
  · exact ⟨row.length, List.mem_range.mpr hlen, by
      simp only [getEntry, hrow, Option.bind]
      exact List.get?_len_le (le_refl _)⟩

/-! ### Claim theorems -/

/-- C9: `set_control_matrix(1, 25, 0)` raises a validation error, because
25 lies outside the allowed scale range `[-20, 20]`, and returns the state
entirely unchanged — in particular all four stored matrix-scale values. -/
theorem c9_control_matrix_validation (s : IIRState) :
    set_control_matrix s 1 25 0 = (.error .validationError, s) := rfl

/-- C2, counterexample: `set_filter` with a valid channel and sample rate
but a structurally invalid coefficient array (a single row) raises a
validation error, yet the resulting state differs from the initial one —
the decimation sample-rate setting has already been staged.  This refutes
"every public setter ... raises ... before staging anything, leaving all
instrument state unchanged". -/
theorem c2_setter_atomicity_counterexample :
    set_filter defState 1 ("high") (some [[1]]) true =
      (.error .validationError, { defState with decfilter1_rate := some 8 }) ∧
    ({ defState with decfilter1_rate := some 8 } : IIRState) ≠ defState := by
  constructor
  · rfl
  · decide

/-- C2, amended: the validating setters `set_control_matrix`,
`set_gains_offsets` and `set_monitor` either succeed or leave the state
entirely unchanged; `set_filter`, however, stages the decimation sample
rate *before* validating the coefficient array, so with a valid channel
and sample rate but an invalid coefficient array it raises with the
sample-rate setting already staged — and stages nothing else. -/
theorem c2_setter_atomicity_amended :
    (∀ (s : IIRState) (ch : ℕ) (a b : ℚ),
      (set_control_matrix s ch a b).1 = .ok () ∨
        (set_control_matrix s ch a b).2 = s) ∧
    (∀ (s : IIRState) (ch : ℕ) (ig og io oo : ℚ),
      (set_gains_offsets s ch ig og io oo).1 = .ok () ∨
        (set_gains_offsets s ch ig og io oo).2 = s) ∧
    (∀ (s : IIRState) (ch source : String),
      (set_monitor s ch source).1 = .ok () ∨ (set_monitor s ch source).2 = s) ∧
    (∀ (s : IIRState) (ch : ℕ) (rate : String) (fc : List (List ℚ))
        (sendOk : Bool) (e : PyErr),
      ch = 1 ∨ ch = 2 → rate = ("high" : String) ∨ rate = ("low" : String) →
      dimValueCheck fc = .error e →
      set_filter s ch rate (some fc) sendOk = (.error e, stageRate s ch rate)) := by
  refine ⟨?_, ?_, ?_, ?_⟩
  · intro s ch a b
    by_cases hch : ch = 1 ∨ ch = 2
    · rcases checkRange_cases a (-20) 20 with h1 | h1
      · rcases checkRange_cases b (-20) 20 with h2 | h2
        · left; rcases hch with rfl | rfl <;> simp [set_control_matrix, h1, h2]
        · right; simp [set_control_matrix, hch, h1, h2]
      · right; simp [set_control_matrix, hch, h1]
    · right; simp [set_control_matrix, hch]
  · intro s ch ig og io oo
    by_cases hch : ch = 1 ∨ ch = 2
    · rcases checkRange_cases ig (-100) 100 with h1 | h1
      · rcases checkRange_cases og (-100) 100 with h2 | h2
        · rcases checkRange_cases io (-1) 1 with h3 | h3
          · rcases checkRange_cases oo (-2) 2 with h4 | h4
            · left
              rcases hch with rfl | rfl <;>
                simp [set_gains_offsets, h1, h2, h3, h4]
            · right; simp [set_gains_offsets, hch, h1, h2, h3, h4]
          · right; simp [set_gains_offsets, hch, h1, h2, h3]
        · right; simp [set_gains_offsets, hch, h1, h2]
      · right; simp [set_gains_offsets, hch, h1]
    · right; simp [set_gains_offsets, hch]
  · intro s ch source
    by_cases hch : ch = ("a" : String) ∨ ch = ("b" : String)
    · by_cases hsrc : source = ("adc1" : String) ∨ source = ("in1" : String) ∨
        source = ("out1" : String) ∨ source = ("adc2" : String) ∨
        source = ("in2" : String) ∨ source = ("out2" : String)
      · left; rcases hch with rfl | rfl <;> simp [set_monitor, hsrc]
      · right; simp [set_monitor, hch, hsrc]
    · right; simp [set_monitor, hch]
  · intro s ch rate fc sendOk e hch hrate hfc
    rcases hch with rfl | rfl <;> rcases hrate with rfl | rfl <;>
      simp [set_filter, hfc, stageRate]

/-- C2, witness for the amended theorem, at the concrete inputs of the
counterexample scenario. -/
theorem c2_setter_atomicity_amended_witness :
    set_filter defState 2 ("low") (some [[1]]) true =
      (.error .validationError, stageRate defState 2 ("low")) :=
  c2_setter_atomicity_amended.2.2.2 defState 2 ("low") [[1]] true
    .validationError (Or.inr rfl) (Or.inr rfl) (by decide)

/-- C6, counterexample: a `set_filter` call whose bulk upload fails with a
transport error terminates with the exclusive memory-map access flag still
enabled — there is no try/finally around `_send_file` in the source, so the
flag is not released on that exit path. -/
theorem c6_mmap_release_counterexample :
    (set_filter defState 1 ("low") none false).1 = .error .transportError ∧
    (set_filter defState 1 ("low") none false).2.mmap_access = true := by
  constructor <;> rfl

/-- C6, amended: on every `set_filter` call that reaches the bulk upload,
the exclusive memory-map access flag is disabled again when the upload
succeeds; when the upload fails with a transport error, the exception
propagates with the flag still enabled. -/
theorem c6_mmap_release_amended (s : IIRState) (ch : ℕ) (rate : String)
    (fcOpt : Option (List (List ℚ))) (sendOk : Bool)
    (hch : ch = 1 ∨ ch = 2)
    (hrate : rate = ("high" : String) ∨ rate = ("low" : String))
    (hfc : ∀ fc, fcOpt = some fc → dimValueCheck fc = .ok ()) :
    (sendOk = true → (set_filter s ch rate fcOpt sendOk).2.mmap_access = false) ∧
    (sendOk = false → (set_filter s ch rate fcOpt sendOk).1 = .error .transportError ∧
      (set_filter s ch rate fcOpt sendOk).2.mmap_access = true) := by
  rcases hch with rfl | rfl <;> rcases hrate with rfl | rfl <;>
    cases fcOpt with
    | none => cases sendOk <;> simp [set_filter]
    | some fc => cases sendOk <;> simp [set_filter, hfc fc rfl]

/-- C6, witness for the amended theorem: both exit paths at a concrete
call uploading the default coefficient arrays. -/
theorem c6_mmap_release_amended_witness :
    ((true : Bool) = true →
      (set_filter defState 1 ("high") none true).2.mmap_access = false) ∧
    ((true : Bool) = false →
      (set_filter defState 1 ("high") none true).1 = .error .transportError ∧
      (set_filter defState 1 ("high") none true).2.mmap_access = true) :=
  c6_mmap_release_amended defState 1 ("high") none true (Or.inl rfl)
    (Or.inl rfl) (fun fc h => by cases h)

/-- C1: a 5-row coefficient array accepted by `set_filter` (row 0 the
overall gain `[G]`, rows 1-4 the SOS rows `[s, b0, b1, b2, a1, a2]`) is
stored for the channel reshaped to 4 rows in which each section's
`b0, b1, b2` are multiplied by that section's `s`, sections 1-3 carry `1.0`
in the gain slot, and section 4 carries the overall gain `G` there (the
`a1, a2` coefficients are untouched).  The stored array does not depend on
whether the subsequent upload succeeds. -/
theorem c1_set_filter_reshape
    (g s1 b01 b11 b21 a11 a21 s2 b02 b12 b22 a12 a22
      s3 b03 b13 b23 a13 a23 s4 b04 b14 b24 a14 a24 : ℚ)
    (st : IIRState) (sendOk : Bool)
    (hv : valueCheck [[g], [s1, b01, b11, b21, a11, a21],
        [s2, b02, b12, b22, a12, a22], [s3, b03, b13, b23, a13, a23],
        [s4, b04, b14, b24, a14, a24]] = .ok ()) :
    ((set_filter st 1 ("high") (some [[g], [s1, b01, b11, b21, a11, a21],
        [s2, b02, b12, b22, a12, a22], [s3, b03, b13, b23, a13, a23],
        [s4, b04, b14, b24, a14, a24]]) sendOk).2).filter_ch1 =
      [[1, s1 * b01, s1 * b11, s1 * b21, a11, a21],
       [1, s2 * b02, s2 * b12, s2 * b22, a12, a22],
       [1, s3 * b03, s3 * b13, s3 * b23, a13, a23],
       [g, s4 * b04, s4 * b14, s4 * b24, a14, a24]] := by
  have hd : dimCheck [[g], [s1, b01, b11, b21, a11, a21],
      [s2, b02, b12, b22, a12, a22], [s3, b03, b13, b23, a13, a23],
      [s4, b04, b14, b24, a14, a24]] = .ok () := rfl
  cases sendOk <;>
    simp [set_filter, dimValueCheck, hd, hv, stageRate, reshapeFilter,
      reshapeRow, Bind.bind, Except.bind]

/-- C1, witness: the spec's own example, overall gain `G = 2.0` with four
unit-gain all-pass sections. -/
theorem c1_set_filter_reshape_witness :
    valueCheck [[2], [1, 1, 0, 0, 0, 0], [1, 1, 0, 0, 0, 0],
        [1, 1, 0, 0, 0, 0], [1, 1, 0, 0, 0, 0]] = .ok () ∧
    ((set_filter defState 1 ("high") (some [[2], [1, 1, 0, 0, 0, 0],
        [1, 1, 0, 0, 0, 0], [1, 1, 0, 0, 0, 0], [1, 1, 0, 0, 0, 0]])
        true).2).filter_ch1 =
      [[1, 1 * 1, 1 * 0, 1 * 0, 0, 0], [1, 1 * 1, 1 * 0, 1 * 0, 0, 0],
       [1, 1 * 1, 1 * 0, 1 * 0, 0, 0], [2, 1 * 1, 1 * 0, 1 * 0, 0, 0]] :=
  have hv : valueCheck [[2], [1, 1, 0, 0, 0, 0], [1, 1, 0, 0, 0, 0],
      [1, 1, 0, 0, 0, 0], [1, 1, 0, 0, 0, 0]] = .ok () := by
    norm_num [valueCheck, checkEntries, checkEntry, getEntry, checkRange,
      gainLo, gainHi, coefLo, coefHi, Bind.bind, Except.bind, range6]
  ⟨hv, c1_set_filter_reshape 2 1 1 0 0 0 0 1 1 0 0 0 0 1 1 0 0 0 0
    1 1 0 0 0 0 defState true hv⟩

/-- C5, counterexample: for a concrete committed configuration (all-pass
on channel 1, a distinct array on channel 2) the integer sequence
`set_filter` writes (`payloadInts`, the source's `for k: for y: for x`
loop) differs from the spec's claimed component-major order already at
position 4: the code writes channel 1's `b0` coefficient (`2^45`) there,
while the claimed order would place channel 2's first gain slot (`2^24`)
there. -/
theorem c5_payload_order_counterexample :
    payloadInts [allpassRow, allpassRow, allpassRow, allpassRow] chBRows ≠
      claimOrderInts [allpassRow, allpassRow, allpassRow, allpassRow]
        chBRows := by
  intro h
  have h4 := congrArg (fun l => l.getD 4 0) h
  dsimp only at h4
  have hL : (payloadInts [allpassRow, allpassRow, allpassRow, allpassRow]
      chBRows).getD 4 0 =
      coeffVal [allpassRow, allpassRow, allpassRow, allpassRow] chBRows
        0 1 0 := rfl
  have hR : (claimOrderInts [allpassRow, allpassRow, allpassRow,
      allpassRow] chBRows).getD 4 0 =
      coeffVal [allpassRow, allpassRow, allpassRow, allpassRow] chBRows
        0 0 1 := rfl
  rw [hL, hR] at h4
  have e1 : coeffVal [allpassRow, allpassRow, allpassRow, allpassRow]
      chBRows 0 1 0 = 2 ^ 45 := by
    have harg : (2 ^ 45 * filterEntry [allpassRow, allpassRow, allpassRow,
        allpassRow] chBRows 0 (1 + 0 * 6) : ℚ) = ((2 ^ 45 : ℤ) : ℚ) := by
      norm_num [filterEntry, allpassRow, chBRows]
    have h0 : coeffVal [allpassRow, allpassRow, allpassRow, allpassRow]
        chBRows 0 1 0 =
        pyRound (2 ^ 45 * filterEntry [allpassRow, allpassRow, allpassRow,
          allpassRow] chBRows 0 (1 + 0 * 6)) := rfl
    rw [h0, harg, pyRound_intCast]
  have e2 : coeffVal [allpassRow, allpassRow, allpassRow, allpassRow]
      chBRows 0 0 1 = 2 ^ 24 := by
    have harg : (2 ^ 24 * filterEntry [allpassRow, allpassRow, allpassRow,
        allpassRow] chBRows 0 (0 + 1 * 6) : ℚ) = ((2 ^ 24 : ℤ) : ℚ) := by
      norm_num [filterEntry, allpassRow, chBRows]
    have h0 : coeffVal [allpassRow, allpassRow, allpassRow, allpassRow]
        chBRows 0 0 1 =
        pyRound (2 ^ 24 * filterEntry [allpassRow, allpassRow, allpassRow,
          allpassRow] chBRows 0 (0 + 1 * 6)) := rfl
    rw [h0, harg, pyRound_intCast]
  rw [e1, e2] at h4
  norm_num at h4

/-- C5, amended: the bulk-upload payload written by `set_filter` is a flat
little-endian sequence of 8-byte signed integers, ordered channel-major,
then component, then row (SOS section): position `i` of the 48-integer
sequence holds row `i % 4`, component `(i / 4) % 6`, channel `i / 24`. -/
theorem c5_payload_order_amended :
    (∀ fc1 fc2 : List (List ℚ),
      payloadBytes fc1 fc2 =
        ((List.range 48).map fun i =>
          coeffVal fc1 fc2 (i % 4) (i / 4 % 6) (i / 24)).flatMap le8) ∧
    (∀ s : IIRState,
      (set_filter s 1 ("high") none true).2.sent =
        some (payloadBytes s.filter_ch1 s.filter_ch2)) :=
  ⟨fun _fc1 _fc2 => rfl, fun _s => rfl⟩

/-- The gain table resolves each valid monitor code to the spec-side
per-source gain. -/
theorem lookup_monitorSourceGains (inp : ScaleInputs) (m : ℕ) (hm : m ≤ 6) :
    List.lookup m (monitorSourceGains
        (inp.gain_adc1 / (if inp.atten_ch1 then 10 else 1))
        (inp.gain_adc2 / (if inp.atten_ch2 then 10 else 1))
        inp.gain_dac1 inp.gain_dac2) =
      some (specMonitorGain m inp) := by
  interval_cases m <;> rfl

/-- C3: with monitor channel a viewing `out1` (code 3), 50Ω input
impedance and precision mode off, the channel-a scale computed by
`_calculate_scales` is `gain_dac1 * 2^4`, and frame decoding multiplies
every raw sample by exactly `gain_dac1 * 16`. -/
theorem c3_out1_frame_scale (inp : ScaleInputs) (m2 : ℕ) (dg : ℚ)
    (raw : List ℚ) (sc1 sc2 : ℚ)
    (hfifty : inp.fiftyr_ch1 = true) (hm2 : m2 ≤ 6)
    (h : calculateScales 3 m2 false dg inp = some (sc1, sc2)) :
    sc1 = inp.gain_dac1 * 16 ∧
    decodeChannel raw sc1 = raw.map fun v => v * (inp.gain_dac1 * 16) := by
  have l1 := lookup_monitorSourceGains inp 3 (by norm_num)
  have l2 := lookup_monitorSourceGains inp m2 hm2
  simp [calculateScales, l1, l2, specMonitorGain] at h
  have hsc : sc1 = inp.gain_dac1 * 16 := h.1.symm
  exact ⟨hsc, by rw [hsc]; simp [decodeChannel]⟩

/-- C3, witness: monitor b on `none`, `gain_dac1 = 7/2`, raw samples
`[1, 2]`. -/
theorem c3_out1_frame_scale_witness :
    inpW3.fiftyr_ch1 = true ∧ (0 : ℕ) ≤ 6 ∧
    calculateScales 3 0 false 1 inpW3 = some (56, 1) ∧
    (56 : ℚ) = inpW3.gain_dac1 * 16 ∧
    decodeChannel [1, 2] 56 = [1, 2].map fun v => v * (inpW3.gain_dac1 * 16) :=
  have hcalc : calculateScales 3 0 false 1 inpW3 = some (56, 1) := by
    have l1 := lookup_monitorSourceGains inpW3 3 (by norm_num)
    have l2 := lookup_monitorSourceGains inpW3 0 (by norm_num)
    simp only [calculateScales, inpW3] at l1 l2 ⊢
    rw [l1, l2]
    norm_num [specMonitorGain]
  have hmain := c3_out1_frame_scale inpW3 0 1 [1, 2] 56 1 rfl
    (by norm_num) hcalc
  ⟨rfl, by norm_num, hcalc, hmain.1, hmain.2⟩

/-- C8: for every monitor-source selection (codes 0-6), the channel scales
computed by `_calculate_scales` equal the per-source gain of the lookup
table — in which the ADC entries are corrected for frontend attenuation by
a factor of 10 exactly when enabled — divided by the decimation gain in
precision mode and left unchanged otherwise. -/
theorem c8_monitor_scale_pipeline (m1 m2 : ℕ) (precision : Bool) (dg : ℚ)
    (inp : ScaleInputs) (h1 : m1 ≤ 6) (h2 : m2 ≤ 6) :
    calculateScales m1 m2 precision dg inp =
      some (specMonitorGain m1 inp / (if precision then dg else 1),
            specMonitorGain m2 inp / (if precision then dg else 1)) := by
  have l1 := lookup_monitorSourceGains inp m1 h1
  have l2 := lookup_monitorSourceGains inp m2 h2
  cases precision <;> simp [calculateScales, l1, l2]

/-- C8, witness: precision mode on, attenuation on channel 1, at concrete
gains (monitoring `adc1` and `out2`). -/
theorem c8_monitor_scale_pipeline_witness :
    calculateScales 1 6 true 4 inpW8 =
      some (specMonitorGain 1 inpW8 / (if true then (4 : ℚ) else 1),
            specMonitorGain 6 inpW8 / (if true then (4 : ℚ) else 1)) :=
  c8_monitor_scale_pipeline 1 6 true 4 inpW8 (by norm_num) (by norm_num)

/-- C7: at dependent-register update time the `matrixscale_ch1_ch1`
register is recomputed from the *stored* user scale (staged earlier by
`set_control_matrix`) using the frontend attenuation flag and channel-1
ADC gain current at commit: the raw value is
`round(scale * (3750.0 / (10.0 if atten else 1.0)) * adc_gain_1 * 2^10)`,
encoded two's-complement as a 16-bit signed field. -/
theorem c7_matrixscale_commit_recompute (st : IIRState) (a b : ℚ)
    (atten : Bool) (adcGain : ℚ)
    (ha : -20 ≤ a ∧ a ≤ 20) (hb : -20 ≤ b ∧ b ≤ 20)
    (hlo : -2 ^ 15 ≤
      pyRound (a * (3750 / (if atten then 10 else 1)) * adcGain * 2 ^ 10))
    (hhi : pyRound (a * (3750 / (if atten then 10 else 1)) * adcGain *
      2 ^ 10) < 2 ^ 15) :
    (set_control_matrix st 1 a b).1 = .ok () ∧
    updateControlMatrixReg1 (set_control_matrix st 1 a b).2 atten adcGain =
      .ok ((pyRound (a * (3750 / (if atten then 10 else 1)) * adcGain *
        2 ^ 10) % 2 ^ 16).toNat) := by
  have hra : checkRange a (-20) 20 = .ok () := (checkRange_ok_iff a _ _).mpr ha
  have hrb : checkRange b (-20) 20 = .ok () := (checkRange_ok_iff b _ _).mpr hb
  have hfield : (set_control_matrix st 1 a b).2.matrixscale_ch1_ch1 = a := by
    simp [set_control_matrix, hra, hrb]
  refine ⟨by simp [set_control_matrix, hra, hrb], ?_⟩
  rw [updateControlMatrixReg1, hfield]
  have hx : matrixscaleXform atten adcGain a =
      pyRound (a * (3750 / (if atten then 10 else 1)) * adcGain * 2 ^ 10) :=
    rfl
  rw [encodeSigned, hx]
  rw [if_pos ⟨by norm_num at hlo ⊢; exact hlo, by norm_num at hhi ⊢; exact hhi⟩]
  norm_num

/-- C7, witness: unity mixing scale, attenuation off, ADC gain `1/3750`,
where the recomputed raw register value is 1024. -/
theorem c7_matrixscale_commit_recompute_witness :
    (set_control_matrix defState 1 1 0).1 = .ok () ∧
    updateControlMatrixReg1 (set_control_matrix defState 1 1 0).2 false
        (1 / 3750) =
      .ok ((pyRound ((1 : ℚ) * (3750 / (if false then 10 else 1)) *
        (1 / 3750) * 2 ^ 10) % 2 ^ 16).toNat) :=
  have harg : ((1 : ℚ) * (3750 / (if false then 10 else 1)) * (1 / 3750) *
      2 ^ 10) = ((1024 : ℤ) : ℚ) := by norm_num
  have hr : pyRound ((1 : ℚ) * (3750 / (if false then 10 else 1)) *
      (1 / 3750) * 2 ^ 10) = 1024 := by rw [harg, pyRound_intCast]
  c7_matrixscale_commit_recompute defState 1 0 false (1 / 3750)
    (by norm_num) (by norm_num) (by rw [hr]; norm_num)
    (by rw [hr]; norm_num)

/-- C4, counterexample: the gain value `8e6 - 2^-25` lies inside the
claimed acceptance interval `[-8e6, 8e6)`, yet `set_filter` rejects it
with a validation error — the check the source performs is against the
closed interval `[-8e6, 8e6 - 2^-24]`, so "accepts exactly those arrays
whose gain lies in `[-8e6, 8e6)`" is false. -/
theorem c4_gain_range_counterexample :
    gainLo ≤ 8000000 - 1 / 2 ^ 25 ∧
    (8000000 - 1 / 2 ^ 25 : ℚ) < 8000000 ∧
    valueCheck [[8000000 - 1 / 2 ^ 25], allpassRow, allpassRow, allpassRow,
      allpassRow] = .error .validationError ∧
    (set_filter defState 1 ("high") (some [[8000000 - 1 / 2 ^ 25],
      allpassRow, allpassRow, allpassRow, allpassRow]) true).1 =
      .error .validationError := by
  obtain ⟨q, hq⟩ : ∃ q : ℚ, (8000000 - 1 / 2 ^ 25 : ℚ) = q := ⟨_, rfl⟩
  rw [hq]
  have hg : checkRange q gainLo gainHi = .error .validationError := by
    rw [← hq, checkRange, if_neg]
    norm_num [gainLo, gainHi]
  have hv : valueCheck [[q], allpassRow, allpassRow, allpassRow,
      allpassRow] = .error .validationError := by
    have he : checkEntry [[q], allpassRow, allpassRow, allpassRow,
        allpassRow] 0 0 gainLo gainHi = .error .validationError := hg
    simp [valueCheck, he, Bind.bind, Except.bind]
  have hd : dimCheck [[q], allpassRow, allpassRow, allpassRow,
      allpassRow] = .ok () := rfl
  refine ⟨by rw [← hq]; norm_num [gainLo], by rw [← hq]; norm_num, hv, ?_⟩
  simp [set_filter, dimValueCheck, hd, hv, Bind.bind, Except.bind]

/-- C4, amended: for a well-formed coefficient array (row 0 `[G]`, rows 1-4
of 6 entries), the value check accepts exactly the arrays whose overall
gain lies in the closed interval `[-8e6, 8e6 - 2^-24]` and whose every SOS
coefficient lies in the closed interval `[-4.0, 4.0 - 2^-45]`; whenever the
check fails, `set_filter` raises a validation error having performed no
upload and stored no filter coefficients (nothing is wrapped or
truncated). -/
theorem c4_accepted_ranges_amended
    (g v10 v11 v12 v13 v14 v15 v20 v21 v22 v23 v24 v25
      v30 v31 v32 v33 v34 v35 v40 v41 v42 v43 v44 v45 : ℚ) :
    (valueCheck [[g], [v10, v11, v12, v13, v14, v15],
        [v20, v21, v22, v23, v24, v25], [v30, v31, v32, v33, v34, v35],
        [v40, v41, v42, v43, v44, v45]] = .ok () ↔
      ((gainLo ≤ g ∧ g ≤ gainHi) ∧
        ∀ v ∈ [v10, v11, v12, v13, v14, v15, v20, v21, v22, v23, v24, v25,
          v30, v31, v32, v33, v34, v35, v40, v41, v42, v43, v44, v45],
          coefLo ≤ v ∧ v ≤ coefHi)) ∧
    (∀ (st : IIRState) (sendOk : Bool),
      valueCheck [[g], [v10, v11, v12, v13, v14, v15],
          [v20, v21, v22, v23, v24, v25], [v30, v31, v32, v33, v34, v35],
          [v40, v41, v42, v43, v44, v45]] ≠ .ok () →
        (set_filter st 1 ("high") (some [[g], [v10, v11, v12, v13, v14, v15],
            [v20, v21, v22, v23, v24, v25], [v30, v31, v32, v33, v34, v35],
            [v40, v41, v42, v43, v44, v45]]) sendOk).1 =
          .error .validationError ∧
        (set_filter st 1 ("high") (some [[g], [v10, v11, v12, v13, v14, v15],
            [v20, v21, v22, v23, v24, v25], [v30, v31, v32, v33, v34, v35],
            [v40, v41, v42, v43, v44, v45]]) sendOk).2.sent = st.sent ∧
        (set_filter st 1 ("high") (some [[g], [v10, v11, v12, v13, v14, v15],
            [v20, v21, v22, v23, v24, v25], [v30, v31, v32, v33, v34, v35],
            [v40, v41, v42, v43, v44, v45]]) sendOk).2.filter_ch1 =
          st.filter_ch1) := by
  have hiff : valueCheck [[g], [v10, v11, v12, v13, v14, v15],
      [v20, v21, v22, v23, v24, v25], [v30, v31, v32, v33, v34, v35],
      [v40, v41, v42, v43, v44, v45]] = .ok () ↔
      ((gainLo ≤ g ∧ g ≤ gainHi) ∧
        ∀ v ∈ [v10, v11, v12, v13, v14, v15, v20, v21, v22, v23, v24, v25,
          v30, v31, v32, v33, v34, v35, v40, v41, v42, v43, v44, v45],
          coefLo ≤ v ∧ v ≤ coefHi) := by
    simp only [valueCheck, exceptBind_ok_iff, checkEntries_ok_iff, range6]
    simp only [checkEntry, getEntry, List.get?, Option.bind,
      checkRange_ok_iff, List.mem_cons, List.not_mem_nil, or_false,
      forall_eq_or_imp, forall_eq]
    tauto
  have hcases : valueCheck [[g], [v10, v11, v12, v13, v14, v15],
      [v20, v21, v22, v23, v24, v25], [v30, v31, v32, v33, v34, v35],
      [v40, v41, v42, v43, v44, v45]] = .ok () ∨
      valueCheck [[g], [v10, v11, v12, v13, v14, v15],
      [v20, v21, v22, v23, v24, v25], [v30, v31, v32, v33, v34, v35],
      [v40, v41, v42, v43, v44, v45]] = .error .validationError := by
    have hex : ∀ m ∈ [1, 2, 3, 4], ∀ n ∈ List.range 6,
        ∃ v, getEntry [[g], [v10, v11, v12, v13, v14, v15],
          [v20, v21, v22, v23, v24, v25], [v30, v31, v32, v33, v34, v35],
          [v40, v41, v42, v43, v44, v45]] m n = some v := by
      intro m hm n hn
      have hn6 := List.mem_range.mp hn
      fin_cases hm <;> interval_cases n <;> exact ⟨_, rfl⟩
    rcases checkRange_cases g gainLo gainHi with h0 | h0 <;>
      rcases checkEntries_cases _ 1 coefLo coefHi (List.range 6)
        (hex 1 (by simp)) with e1 | e1 <;>
      rcases checkEntries_cases _ 2 coefLo coefHi (List.range 6)
        (hex 2 (by simp)) with e2 | e2 <;>
      rcases checkEntries_cases _ 3 coefLo coefHi (List.range 6)
        (hex 3 (by simp)) with e3 | e3 <;>
      rcases checkEntries_cases _ 4 coefLo coefHi (List.range 6)
        (hex 4 (by simp)) with e4 | e4 <;>
      simp [valueCheck, h0, e1, e2, e3, e4, Bind.bind, Except.bind,
        checkEntry, getEntry, List.get?, Option.bind]
  refine ⟨hiff, ?_⟩
  intro st sendOk hne
  rcases hcases with h | h
  · exact absurd h hne
  have hd : dimCheck [[g], [v10, v11, v12, v13, v14, v15],
      [v20, v21, v22, v23, v24, v25], [v30, v31, v32, v33, v34, v35],
      [v40, v41, v42, v43, v44, v45]] = .ok () := rfl
  refine ⟨?_, ?_, ?_⟩ <;>
    simp [set_filter, dimValueCheck, hd, h, Bind.bind, Except.bind,
      stageRate]

/-- C4, witness for the amended theorem: the acceptance direction of the
iff at the all-pass array with gain 2. -/
theorem c4_accepted_ranges_amended_witness :
    valueCheck [[2], [1, 1, 0, 0, 0, 0], [1, 1, 0, 0, 0, 0],
      [1, 1, 0, 0, 0, 0], [1, 1, 0, 0, 0, 0]] = .ok () :=
  (c4_accepted_ranges_amended 2 1 1 0 0 0 0 1 1 0 0 0 0 1 1 0 0 0 0
    1 1 0 0 0 0).1.mpr
    ⟨by norm_num [gainLo, gainHi], by
      intro v hv
      simp at hv
      have h01 : v = 0 ∨ v = 1 := by tauto
      rcases h01 with rfl | rfl <;> norm_num [coefLo, coefHi]⟩

/-- C10: for an array with exactly 5 rows whose row 0 has 1 entry and rows
1-3 have 6 entries, row 4's length is never examined by the dimension
validation (it passes even with a short row 4); when row 4 has fewer than
6 entries (and the values that do exist are in range), the value check
fails with an out-of-bounds index access (`IndexError`), not a validation
error naming the malformed row. -/
theorem c10_row4_dimension_gap (g : ℚ) (r1 r2 r3 r4 : List ℚ)
    (h1 : r1.length = 6) (h2 : r2.length = 6) (h3 : r3.length = 6)
    (h4 : r4.length < 6)
    (hg : gainLo ≤ g ∧ g ≤ gainHi)
    (hr : ∀ v ∈ r1 ++ r2 ++ r3 ++ r4, coefLo ≤ v ∧ v ≤ coefHi) :
    dimCheck [[g], r1, r2, r3, r4] = .ok () ∧
    valueCheck [[g], r1, r2, r3, r4] = .error .indexError := by
  constructor
  · simp [dimCheck, h1, h2, h3]
  · have e0 : checkEntry [[g], r1, r2, r3, r4] 0 0 gainLo gainHi =
        .ok () := (checkRange_ok_iff g gainLo gainHi).mpr hg
    have e1 := checkEntries_row_ok [[g], r1, r2, r3, r4] 1 r1 rfl h1
      fun v hv => hr v (by simp [hv])
    have e2 := checkEntries_row_ok [[g], r1, r2, r3, r4] 2 r2 rfl h2
      fun v hv => hr v (by simp [hv])
    have e3 := checkEntries_row_ok [[g], r1, r2, r3, r4] 3 r3 rfl h3
      fun v hv => hr v (by simp [hv])
    have e4 := checkEntries_row_short [[g], r1, r2, r3, r4] 4 r4 rfl h4
      fun v hv => hr v (by simp [hv])
    simp [valueCheck, e0, e1, e2, e3, e4, Bind.bind, Except.bind]

/-- C10, witness: row 4 empty, all other rows the in-range all-pass row,
gain 2. -/
theorem c10_row4_dimension_gap_witness :
    dimCheck [[2], allpassRow, allpassRow, allpassRow, []] = .ok () ∧
    valueCheck [[2], allpassRow, allpassRow, allpassRow, []] =
      .error .indexError :=
  c10_row4_dimension_gap 2 allpassRow allpassRow allpassRow []
    rfl rfl rfl (by norm_num)
    (by norm_num [gainLo, gainHi])
    (by
      intro v hv
      simp [allpassRow] at hv
      have h01 : v = 0 ∨ v = 1 := by tauto
      rcases h01 with rfl | rfl <;> norm_num [coefLo, coefHi])

end Pymoku
